import Mathlib

/-!
# Verification of the goldilocks thermostat core

Shallow embedding of the cooperative scheduler, sensor aggregator,
hysteresis control state machine and MQTT recovery policy of
`src/thermostat.py` (final design in `src/src/thermostat.py`).
Temperatures and monotonic times are modelled as rationals; the
monotonic clock reading `time.monotonic()` is passed explicitly as a
`now` parameter.
-/

namespace Goldilocks

/-- Unit conversion, `thermostat.py` line 45. -/
def celsius_to_fahrenheit (celsius : ℚ) : ℚ := celsius * 9 / 5 + 32

/-- Unit conversion, `thermostat.py` line 48. -/
def fahrenheit_to_celsius (fahrenheit : ℚ) : ℚ := (fahrenheit - 32) * 5 / 9

/-- A single sensor reading, class `Datum` (`thermostat.py` lines 329-342):
value plus the monotonic timestamp at which it was recorded. -/
structure Datum where
  value : ℚ
  timestamp : ℚ
deriving DecidableEq, Repr

/-- `Datum.age` (`thermostat.py` line 335): now minus the reading's timestamp. -/
def Datum.age (now : ℚ) (d : Datum) : ℚ := now - d.timestamp

/-- The accumulator loop of `Thermostat.overall_temperature`
(`thermostat.py` lines 473-480): walk the recorded readings keeping a
running total and count of the readings younger than 120 seconds; a
reading 120 seconds old or older is instead appended to the list of
ignored readings (each of which the source logs with a debug line). -/
def overall_loop (now : ℚ) : List Datum → ℚ × ℕ × List Datum → ℚ × ℕ × List Datum
  | [], acc => acc
  | d :: rest, (total, count, ignored) =>
    if Datum.age now d < 120 then
      overall_loop now rest (total + d.value, count + 1, ignored)
    else
      overall_loop now rest (total, count, ignored ++ [d])

/-- `Thermostat.overall_temperature` (`thermostat.py` lines 472-486):
average the fresh readings; fall back to 70 when no reading is fresh. -/
def overall_temperature (now : ℚ) (temps : List Datum) : ℚ :=
  let res := overall_loop now temps (0, 0, [])
  if res.2.1 = 0 then 70 else res.1 / (res.2.1 : ℚ)

/-- The debug-log output of `Thermostat.overall_temperature`: the list of
readings it logged as ignored (the source's log call at line 480).  The
`count = 0` fallback branch at lines 482-484 performs no log call. -/
def overall_temperature_logs (now : ℚ) (temps : List Datum) : List Datum :=
  (overall_loop now temps (0, 0, [])).2.2

/-- A reading is fresh when its age is strictly below 120 seconds. -/
def fresh (now : ℚ) (d : Datum) : Bool := Datum.age now d < 120

lemma overall_loop_spec (now : ℚ) (temps : List Datum) (t0 : ℚ) (c0 : ℕ)
    (ig0 : List Datum) :
    overall_loop now temps (t0, c0, ig0) =
      (t0 + ((temps.filter (fresh now)).map Datum.value).sum,
       c0 + (temps.filter (fresh now)).length,
       ig0 ++ temps.filter (fun d => ! fresh now d)) := by
  induction temps generalizing t0 c0 ig0 with
  | nil => simp [overall_loop]
  | cons d rest ih =>
    by_cases h : Datum.age now d < 120
    · simp only [overall_loop, if_pos h, ih]
      simp [fresh, List.filter_cons, h, Prod.ext_iff]
      exact ⟨by ring, by omega⟩
    · simp only [overall_loop, if_neg h, ih]
      simp [fresh, List.filter_cons, h, Prod.ext_iff]

/-- Heat pump operating modes used by the control logic
(`HeatPump.Mode.HEAT` / `HeatPump.Mode.COOL`). -/
inductive Mode where
  | heat
  | cool
deriving DecidableEq, Repr

/-- Commands the thermostat issues to the heat-pump actuator, in the
order they are issued.  The `HeatPump` module itself is excluded at the
interface boundary; each constructor records one call made by
`Thermostat.temperature_updated` (`thermostat.py` lines 495-514). -/
inductive Command where
  | set_mode : Mode → Command
  | set_power : Bool → Command
  | set_temperature_c : ℚ → Command
  | set_remote_temperature_c : ℚ → Command
deriving DecidableEq, Repr

/-- The control-relevant state of the `Thermostat` object: the two
setpoints held in `Settings` (`temp_low`, `temp_high`) and the active
goal `target_temperature` (`None` when idle). -/
structure ThermostatState where
  temp_low : ℚ
  temp_high : ℚ
  target_temperature : Option ℚ
deriving DecidableEq, Repr

/-- The control branch of `Thermostat.temperature_updated`
(`thermostat.py` lines 492-514), taking the already-fused temperature:
with no active target, heat when cold (target `low+1`), cool when hot
(target `high-1`), else power off; with an active target, power off and
clear the target once strictly inside the dead-band `(low+1, high-1)`.
In every case the final call reports the fused temperature as the
actuator's remote-temperature telemetry.  Returns the new state and the
list of actuator commands issued. -/
def control_step (st : ThermostatState) (T : ℚ) : ThermostatState × List Command :=
  match st.target_temperature with
  | none =>
    if T ≤ st.temp_low then
      ({ st with target_temperature := some (st.temp_low + 1) },
       [.set_mode .heat, .set_power true,
        .set_temperature_c (fahrenheit_to_celsius (st.temp_low + 1)),
        .set_remote_temperature_c (fahrenheit_to_celsius T)])
    else if T ≥ st.temp_high then
      ({ st with target_temperature := some (st.temp_high - 1) },
       [.set_mode .cool, .set_power true,
        .set_temperature_c (fahrenheit_to_celsius (st.temp_high - 1)),
        .set_remote_temperature_c (fahrenheit_to_celsius T)])
    else
      (st, [.set_power false, .set_remote_temperature_c (fahrenheit_to_celsius T)])
  | some _ =>
    if st.temp_low + 1 < T ∧ T < st.temp_high - 1 then
      ({ st with target_temperature := none },
       [.set_power false, .set_remote_temperature_c (fahrenheit_to_celsius T)])
    else
      (st, [.set_remote_temperature_c (fahrenheit_to_celsius T)])

/-- `Thermostat.temperature_updated` (`thermostat.py` lines 488-514):
fuse the recorded readings with `overall_temperature`, then run the
control logic.  The GUI update at line 490 is excluded at the display
interface boundary. -/
def temperature_updated (now : ℚ) (temps : List Datum) (st : ThermostatState) :
    ThermostatState × List Command :=
  control_step st (overall_temperature now temps)

/-- `Thermostat.set_range` (`thermostat.py` lines 554-559): store the new
setpoints and clear the active target.  The settings dirty-flag tracking
and the debounced save task submitted at line 559 belong to the excluded
settings store and are not part of the control state. -/
def set_range (_st : ThermostatState) (low high : ℚ) : ThermostatState :=
  { temp_low := low, temp_high := high, target_temperature := none }

/-- The preset table `Thermostat.presets` (`thermostat.py` lines 376-380). -/
def presets : List (String × ℚ × ℚ) :=
  [("Sleep", (58, 74)), ("Away", (64, 79)), ("Home", (68, 75))]

/-- `Thermostat.select_preset` (`thermostat.py` lines 382-384): look the
name up in the preset table and apply `set_range`; an unknown name is a
`KeyError` in the source, modelled as `none`. -/
def select_preset (st : ThermostatState) (name : String) : Option ThermostatState :=
  (presets.lookup name).map (fun p => set_range st p.1 p.2)

/-- A task as the scheduler sees it for one `run` call: its name and the
value its `run()` method returns this time (`Task.run` returns the
callback's result, `RepeatTask.run` returns the period; `thermostat.py`
lines 302-327).  `ret = none` models a Python `None` return. -/
structure Task where
  name : String
  ret : Option ℚ
deriving DecidableEq, Repr

/-- Modelled from the spec: the `priority_queue` module imported at
`thermostat.py` line 41 is not under `src/`.  Per spec §3, scheduled
entries are ordered by due time ascending with ties broken arbitrarily;
the `TaskRunner` stores the *negated* due time as the priority, so the
queue must yield the entry with the greatest priority.  We represent the
queue as a list of (priority, task) pairs. -/
abbrev PriorityQueue := List (ℚ × Task)

/-- Modelled from the spec: insert an entry with the given priority. -/
def PriorityQueue.add (q : PriorityQueue) (task : Task) (priority : ℚ) :
    PriorityQueue :=
  (priority, task) :: q

/-- Modelled from the spec: remove and return an entry of greatest
priority together with the remaining queue; `none` on an empty queue. -/
def PriorityQueue.popMax : PriorityQueue → Option ((ℚ × Task) × PriorityQueue)
  | [] => none
  | e :: rest =>
    match PriorityQueue.popMax rest with
    | none => some (e, [])
    | some (m, rest') => if m.1 > e.1 then some (m, e :: rest') else some (e, rest)

/-- Modelled from the spec: the greatest priority in the queue. -/
def PriorityQueue.peek_priority (q : PriorityQueue) : Option ℚ :=
  q.popMax.map (fun e => e.1.1)

/-- Modelled from the spec: remove a greatest-priority entry. -/
def PriorityQueue.pop (q : PriorityQueue) : Option (Task × PriorityQueue) :=
  q.popMax.map (fun e => (e.1.2, e.2))

/-- The scheduler state: the `task_queue` field of `TaskRunner`
(`thermostat.py` line 349). -/
structure TaskRunnerState where
  task_queue : PriorityQueue
deriving DecidableEq, Repr

namespace TaskRunner

/-- `TaskRunner.add` (`thermostat.py` lines 351-353): an entry due at
`now + delay` is stored with priority `-now - delay`. -/
def add (now : ℚ) (st : TaskRunnerState) (task : Task) (delay : ℚ) :
    TaskRunnerState :=
  ⟨st.task_queue.add task (-now - delay)⟩

/-- One call to `TaskRunner.run` (`thermostat.py` lines 355-370).  `now`
is the monotonic time sampled at line 356.  Peek the most urgent entry;
if its due time `run_time = -priority` has passed, pop it and run the
task; when the returned `run_after` is truthy (not `None`, not `0`),
reinsert the task at `run_time + run_after`, moved up to
`now + run_after` if that lies in the past.  The elapsed-time debug log
at lines 362-364 does not affect the queue.  Peeking an empty queue is a
runtime error in the source, modelled as `none`. -/
def run (now : ℚ) (st : TaskRunnerState) : Option TaskRunnerState :=
  match st.task_queue.peek_priority with
  | none => none
  | some p =>
    let run_time := -p
    if run_time ≤ now then
      match st.task_queue.pop with
      | none => none
      | some (task, q') =>
        match task.ret with
        | none => some ⟨q'⟩
        | some run_after =>
          if run_after = 0 then some ⟨q'⟩
          else
            let next_time := run_time + run_after
            let next_time := if next_time < now then now + run_after else next_time
            some ⟨q'.add task (-next_time)⟩
    else
      some st

end TaskRunner

namespace Mqtt

/-- The exception classes caught by `Mqtt.poll` / `Mqtt.recover`
(`thermostat.py` lines 200 and 211): `MMQTTException`, `OSError`,
`AttributeError`. -/
inductive PErr where
  | mmqtt
  | osErr
  | attrErr
deriving DecidableEq, Repr

/-- One poll's worth of behaviour of the underlying `adafruit_minimqtt`
client, the transport component excluded at the interface boundary: the
messages `client.loop(0)` delivers through `on_message` before it
returns or raises, and the outcome (success or raised exception class)
of `loop`, of `advertise`'s config publish, of the uptime publish and of
`disconnect`. -/
structure Client where
  loopMsgs : List (String × ℚ)
  loopErr : Option PErr
  pubCfgErr : Option PErr
  pubUptimeErr : Option PErr
  discErr : Option PErr
deriving DecidableEq, Repr

/-- The fields of the `Mqtt` object that `poll` reads and writes
(`thermostat.py` lines 135, 143, 144): the session (`None` when
disconnected), the accumulated temperature messages, and the time of the
last advertisement. -/
structure State where
  client : Option Client
  temperatures : List (String × ℚ)
  last_advertisement : ℚ
deriving DecidableEq, Repr

/-- Observable side effects of one `poll` call: the error log lines
written by `recover` (`thermostat.py` lines 207 and 212), the
`disconnect()` attempt at line 210, and the publishes. -/
inductive Event where
  | logPollError : PErr → Event
  | disconnectAttempt : Event
  | logDisconnectError : PErr → Event
  | publishConfig : Event
  | publishUptime : Event
deriving DecidableEq, Repr

/-- `Mqtt.on_message` (`thermostat.py` lines 146-150) upserts into the
`temperatures` dict; Python dicts update an existing key in place and
append a new key. -/
def upsert (m : List (String × ℚ)) (k : String) (v : ℚ) : List (String × ℚ) :=
  if m.any (fun e => e.1 = k) then
    m.map (fun e => if e.1 = k then (k, v) else e)
  else
    m ++ [(k, v)]

/-- All `on_message` callbacks fired during one `client.loop(0)` call. -/
def on_message_all (m : List (String × ℚ)) (msgs : List (String × ℚ)) :
    List (String × ℚ) :=
  msgs.foldl (fun acc kv => upsert acc kv.1 kv.2) m

/-- `Mqtt.recover` (`thermostat.py` lines 206-215): log the failure, try
`client.disconnect()` — logging, not propagating, its own failure (a
`disconnect` on an already-discarded `None` client raises
`AttributeError`) — and discard the session. -/
def recover (st : State) (e : PErr) : State × List Event :=
  let disc : List Event :=
    match st.client with
    | none => [.disconnectAttempt, .logDisconnectError .attrErr]
    | some c =>
      match c.discErr with
      | none => [.disconnectAttempt]
      | some ex => [.disconnectAttempt, .logDisconnectError ex]
  ({ st with client := none }, .logPollError e :: disc)

/-- `Mqtt.advertise` (`thermostat.py` lines 176-190): no-op without a
session; otherwise publish the discovery config, calling `recover` on
failure; `last_advertisement` is updated afterwards in either case. -/
def advertise (now : ℚ) (st : State) : State × List Event :=
  match st.client with
  | none => (st, [])
  | some c =>
    match c.pubCfgErr with
    | none => ({ st with last_advertisement := now }, [.publishConfig])
    | some e =>
      let (st', evs) := recover st e
      ({ st' with last_advertisement := now }, evs)

/-- `Mqtt.poll` (`thermostat.py` lines 192-204): without a session,
return `[]`.  Otherwise run `client.loop(0)` (delivering messages, then
possibly raising), advertise when more than 600 seconds have passed,
publish the uptime status (an `AttributeError` when `advertise`'s
recovery already discarded the client), handling any caught exception
with `recover`; finally hand back and clear the accumulated
temperatures.  The result is `Except.error` only if an exception would
propagate out of `poll` — every branch of the translated body is
`.ok`. -/
def poll (now : ℚ) (st : State) :
    Except PErr (List (String × ℚ) × State × List Event) :=
  match st.client with
  | none => .ok ([], st, [])
  | some c =>
    let stM : State := { st with temperatures := on_message_all st.temperatures c.loopMsgs }
    let (st2, evs) : State × List Event :=
      match c.loopErr with
      | some e => recover stM e
      | none =>
        let (stA, evsA) :=
          if now - stM.last_advertisement > 600 then advertise now stM
          else (stM, ([] : List Event))
        match stA.client with
        | none =>
          let (stR, evsR) := recover stA .attrErr
          (stR, evsA ++ evsR)
        | some c2 =>
          match c2.pubUptimeErr with
          | none => (stA, evsA ++ [.publishUptime])
          | some e =>
            let (stR, evsR) := recover stA e
            (stR, evsA ++ evsR)
    .ok (st2.temperatures, { st2 with temperatures := [] }, evs)

/-- A transport-layer failure is raised somewhere during this `poll`
call: by `client.loop(0)`, by the advertisement publish (when one is
due), or by the uptime publish. -/
def failure_during_poll (now : ℚ) (st : State) (c : Client) : Prop :=
  c.loopErr ≠ none ∨
  (now - st.last_advertisement > 600 ∧ c.pubCfgErr ≠ none) ∨
  c.pubUptimeErr ≠ none

end Mqtt

/-! ## Claims -/

/-- Claim C2: the fused temperature equals the unweighted arithmetic mean
of the values of exactly those recorded readings whose age (now minus
reading timestamp) is strictly less than 120 seconds; readings 120
seconds old or older contribute nothing, for every non-empty set of
qualifying readings. -/
theorem claim_c2_fused_is_mean_of_fresh (now : ℚ) (temps : List Datum)
    (h : temps.filter (fresh now) ≠ []) :
    overall_temperature now temps =
      ((temps.filter (fresh now)).map Datum.value).sum /
        ((temps.filter (fresh now)).length : ℚ) := by
  have hlen : (temps.filter (fresh now)).length ≠ 0 :=
    fun h0 => h (List.length_eq_zero.mp h0)
  unfold overall_temperature
  rw [overall_loop_spec]
  simp [hlen]

/-- Witness for C2, the spec's staleness example: with a 300-second-old
reading of 100 and a 10-second-old reading of 70, the fused temperature
is 70, not the average of both. -/
theorem claim_c2_witness :
    (([⟨100, 0⟩, ⟨70, 290⟩] : List Datum).filter (fresh 300) ≠ []) ∧
    overall_temperature 300 [⟨100, 0⟩, ⟨70, 290⟩] = 70 := by
  have h : ([⟨100, 0⟩, ⟨70, 290⟩] : List Datum).filter (fresh 300) ≠ [] := by
    norm_num [List.filter, fresh, Datum.age]
  refine ⟨h, ?_⟩
  rw [claim_c2_fused_is_mean_of_fresh 300 _ h]
  norm_num [List.filter, fresh, Datum.age]

/-- Counterexample to Claim C6: with no recorded readings at all, the
fused temperature is the fallback 70, but the log output of the fusion
is empty — the `count == 0` branch of `overall_temperature` performs no
log call, so the fallback event is not logged. -/
theorem claim_c6_counterexample :
    overall_temperature 0 [] = 70 ∧ overall_temperature_logs 0 [] = [] :=
  ⟨rfl, rfl⟩

/-- Claim C6 as amended: if no recorded reading is fresh (including the
empty table), the fused temperature is the fixed fallback 70 and no
error is raised; each stale reading consulted is logged as ignored, but
no dedicated log entry marks the fallback itself, so nothing is logged
when the table is empty. -/
theorem claim_c6_amended_fallback (now : ℚ) (temps : List Datum)
    (h : temps.filter (fresh now) = []) :
    overall_temperature now temps = 70 ∧
    overall_temperature_logs now temps = temps.filter (fun d => ! fresh now d) := by
  unfold overall_temperature overall_temperature_logs
  rw [overall_loop_spec]
  simp [h]

/-- Witness for the amended C6: a single 200-second-old reading is
ignored and logged, and fusion falls back to 70. -/
theorem claim_c6_witness :
    (([⟨100, 0⟩] : List Datum).filter (fresh 200) = []) ∧
    overall_temperature 200 [⟨100, 0⟩] = 70 ∧
    overall_temperature_logs 200 [⟨100, 0⟩] = [⟨100, 0⟩] := by
  have h : ([⟨100, 0⟩] : List Datum).filter (fresh 200) = [] := by
    norm_num [List.filter, fresh, Datum.age]
  obtain ⟨h1, h2⟩ := claim_c6_amended_fallback 200 [⟨100, 0⟩] h
  refine ⟨h, h1, ?_⟩
  rw [h2]
  norm_num [List.filter, fresh, Datum.age]

/-- Claim C3: from the Idle state (no active target), a fused temperature
T at or below `low` commands Heat with power on and sets the target to
`low + 1`; otherwise T at or above `high` commands Cool with power on
and sets the target to `high - 1`; otherwise power is commanded off and
the target stays cleared — for every pair of setpoints and every T. -/
theorem claim_c3_idle_transitions (low high T : ℚ) :
    (T ≤ low →
      control_step ⟨low, high, none⟩ T =
        (⟨low, high, some (low + 1)⟩,
         [.set_mode .heat, .set_power true,
          .set_temperature_c (fahrenheit_to_celsius (low + 1)),
          .set_remote_temperature_c (fahrenheit_to_celsius T)])) ∧
    (¬ T ≤ low → T ≥ high →
      control_step ⟨low, high, none⟩ T =
        (⟨low, high, some (high - 1)⟩,
         [.set_mode .cool, .set_power true,
          .set_temperature_c (fahrenheit_to_celsius (high - 1)),
          .set_remote_temperature_c (fahrenheit_to_celsius T)])) ∧
    (¬ T ≤ low → ¬ T ≥ high →
      control_step ⟨low, high, none⟩ T =
        (⟨low, high, none⟩,
         [.set_power false, .set_remote_temperature_c (fahrenheit_to_celsius T)])) := by
  refine ⟨fun h => ?_, fun h1 h2 => ?_, fun h1 h2 => ?_⟩ <;>
    simp [control_step, *]

/-- Witness for C3: at setpoints (60, 75), a fused temperature of 58
enters Heating with target 61. -/
theorem claim_c3_witness :
    control_step ⟨60, 75, none⟩ 58 =
      (⟨60, 75, some 61⟩,
       [.set_mode .heat, .set_power true,
        .set_temperature_c (fahrenheit_to_celsius 61),
        .set_remote_temperature_c (fahrenheit_to_celsius 58)]) := by
  have h := (claim_c3_idle_transitions 60 75 58).1 (by norm_num)
  norm_num at h
  exact h

/-- Claim C4: with an active target set, a temperature update clears the
target and commands power off exactly when `low + 1 < T < high - 1` with
both inequalities strict; in particular with low = 60 and high = 75 the
transition happens at T = 61.5 but not at T = 61.0. -/
theorem claim_c4_deadband_exit (low high tgt T : ℚ) :
    (((control_step ⟨low, high, some tgt⟩ T).1.target_temperature = none ∧
        Command.set_power false ∈ (control_step ⟨low, high, some tgt⟩ T).2) ↔
      (low + 1 < T ∧ T < high - 1)) ∧
    (control_step ⟨60, 75, some 61⟩ (123 / 2)).1.target_temperature = none ∧
    (control_step ⟨60, 75, some 61⟩ 61).1.target_temperature = some 61 := by
  refine ⟨?_, by norm_num [control_step], by norm_num [control_step]⟩
  by_cases hc : low + 1 < T ∧ T < high - 1 <;> simp [control_step, hc]

/-- Claim C5: with an active target and the fused temperature outside the
open dead-band, an update issues only the remote-temperature telemetry
command; and in every state, every update issues the remote-temperature
telemetry command carrying the fused temperature. -/
theorem claim_c5_telemetry_only (low high tgt T : ℚ) (st : ThermostatState) :
    (¬ (low + 1 < T ∧ T < high - 1) →
      (control_step ⟨low, high, some tgt⟩ T).2 =
        [Command.set_remote_temperature_c (fahrenheit_to_celsius T)]) ∧
    Command.set_remote_temperature_c (fahrenheit_to_celsius T) ∈ (control_step st T).2 := by
  constructor
  · intro h
    simp [control_step, h]
  · obtain ⟨l, hi, tg⟩ := st
    rcases tg with _ | t
    · by_cases h1 : T ≤ l
      · simp [control_step, h1]
      · by_cases h2 : T ≥ hi <;> simp [control_step, h1, h2]
    · by_cases h : l + 1 < T ∧ T < hi - 1 <;> simp [control_step, h]

/-- Witness for C5: in Heating at setpoints (60, 75) with target 61, an
update at T = 59 issues exactly the telemetry command. -/
theorem claim_c5_witness :
    (control_step ⟨60, 75, some 61⟩ 59).2 =
      [Command.set_remote_temperature_c (fahrenheit_to_celsius 59)] ∧
    Command.set_remote_temperature_c (fahrenheit_to_celsius 59) ∈
      (control_step ⟨60, 75, some 61⟩ 59).2 :=
  ⟨(claim_c5_telemetry_only 60 75 61 59 ⟨60, 75, some 61⟩).1 (by norm_num),
   (claim_c5_telemetry_only 60 75 61 59 ⟨60, 75, some 61⟩).2⟩

/-- Claim C10: every `set_range` call stores the new setpoints and clears
the active target, so the next fused-temperature update runs the
Idle-state rules against the new setpoints; preset selection goes
through `set_range` as well. -/
theorem claim_c10_set_range_resets (st : ThermostatState) (low high : ℚ) :
    set_range st low high = ⟨low, high, none⟩ ∧
    (set_range st low high).target_temperature = none ∧
    (∀ T, control_step (set_range st low high) T = control_step ⟨low, high, none⟩ T) ∧
    (∀ name l h, presets.lookup name = some (l, h) →
      select_preset st name = some (set_range st l h)) := by
  refine ⟨rfl, rfl, fun T => rfl, fun name l h hl => ?_⟩
  simp [select_preset, hl]

/-- Witness for C10: selecting the Sleep preset from a Cooling state
resets to Idle with the preset's setpoints. -/
theorem claim_c10_witness :
    select_preset ⟨70, 80, some 71⟩ "Sleep" = some ⟨58, 74, none⟩ := by
  have h := (claim_c10_set_range_resets ⟨70, 80, some 71⟩ 0 0).2.2.2 "Sleep" 58 74
    (by simp [presets, List.lookup])
  simpa [set_range] using h

/-- Shared helper: what one `TaskRunner.run` call does when the most
urgent entry is due and its task returns a truthy re-run delay: the task
is reinserted due at `original_due + delay`, replaced by `now + delay`
when `original_due + delay` lies in the past. -/
lemma run_reschedules (now p d : ℚ) (st : TaskRunnerState)
    (task : Task) (q' : PriorityQueue)
    (hpeek : st.task_queue.peek_priority = some p)
    (hdue : -p ≤ now)
    (hpop : st.task_queue.pop = some (task, q'))
    (hret : task.ret = some d) (hd : d ≠ 0) :
    TaskRunner.run now st =
      some ⟨q'.add task (-(if -p + d < now then now + d else -p + d))⟩ := by
  unfold TaskRunner.run
  rw [hpeek]
  simp only [hpop, hret, if_pos hdue, if_neg hd]

/-- Counterexample to Claim C1: a task due at time 0 runs at now = 1
(late by 1) and asks to be re-run after 5; the code reinserts it due at
`original_due + delay = 5`, but the claim demands
`max(original_due + delay, now + delay) = 6`, and demands `now + delay`
for every late task.  (Queue priorities are negated due times.) -/
theorem claim_c1_counterexample :
    TaskRunner.run 1 ⟨[(0, ⟨"t", some 5⟩)]⟩ = some ⟨[(-5, ⟨"t", some 5⟩)]⟩ ∧
    (5 : ℚ) ≠ max ((0 : ℚ) + 5) ((1 : ℚ) + 5) ∧
    (0 : ℚ) < 1 := by
  refine ⟨?_, by norm_num, by norm_num⟩
  have h := run_reschedules 1 0 5 ⟨[(0, ⟨"t", some 5⟩)]⟩ ⟨"t", some 5⟩ []
    rfl (by norm_num) rfl rfl (by norm_num)
  norm_num at h
  exact h

/-- Claim C1 as amended: when `TaskRunner.run` executes a due task whose
`run()` returns a truthy re-run delay, the task is reinserted due at
`original_due + delay`, except that when `original_due + delay` is
earlier than `now` the due time becomes `now + delay`; a late task
therefore keeps `original_due + delay` as long as its lateness does not
exceed the delay. -/
theorem claim_c1_amended_reschedule (now p d : ℚ) (st : TaskRunnerState)
    (task : Task) (q' : PriorityQueue)
    (hpeek : st.task_queue.peek_priority = some p)
    (hdue : -p ≤ now)
    (hpop : st.task_queue.pop = some (task, q'))
    (hret : task.ret = some d) (hd : d ≠ 0) :
    TaskRunner.run now st =
      some ⟨q'.add task (-(if -p + d < now then now + d else -p + d))⟩ :=
  run_reschedules now p d st task q' hpeek hdue hpop hret hd

/-- Witness for the amended C1: a task due at 2 runs at now = 3 with
delay 10; since 2 + 10 = 12 is not in the past it is reinserted due at
12 (priority -12), not at now + delay = 13. -/
theorem claim_c1_witness :
    TaskRunner.run 3 ⟨[(-2, ⟨"u", some 10⟩)]⟩ = some ⟨[(-12, ⟨"u", some 10⟩)]⟩ := by
  have h := claim_c1_amended_reschedule 3 (-2) 10 ⟨[(-2, ⟨"u", some 10⟩)]⟩
    ⟨"u", some 10⟩ [] rfl (by norm_num) rfl rfl (by norm_num)
  norm_num at h
  exact h

/-- Claim C8: every task `TaskRunner.run` resubmits with a positive
re-run delay is inserted with a due time at or after the monotonic time
sampled by that `run` call — no entry is scheduled into the past. -/
theorem claim_c8_no_past_scheduling (now p d : ℚ) (st : TaskRunnerState)
    (task : Task) (q' : PriorityQueue)
    (hpeek : st.task_queue.peek_priority = some p)
    (hdue : -p ≤ now)
    (hpop : st.task_queue.pop = some (task, q'))
    (hret : task.ret = some d) (hd : 0 < d) :
    ∃ nt, TaskRunner.run now st = some ⟨q'.add task (-nt)⟩ ∧ now ≤ nt := by
  refine ⟨if -p + d < now then now + d else -p + d,
    run_reschedules now p d st task q' hpeek hdue hpop hret (ne_of_gt hd), ?_⟩
  split_ifs with h
  · linarith
  · linarith

/-- Witness for C8: a task due at 0 runs at now = 7 with delay 2; its
next due time (9 = now + delay, since 0 + 2 is in the past) is at or
after now. -/
theorem claim_c8_witness :
    ∃ nt, TaskRunner.run 7 ⟨[(0, ⟨"w", some 2⟩)]⟩ =
      some ⟨PriorityQueue.add [] ⟨"w", some 2⟩ (-nt)⟩ ∧ (7 : ℚ) ≤ nt :=
  claim_c8_no_past_scheduling 7 0 2 ⟨[(0, ⟨"w", some 2⟩)]⟩ ⟨"w", some 2⟩ []
    rfl (by norm_num) rfl rfl (by norm_num)

/-- Counterexample to Claim C7: `client.loop(0)` delivers one message
and then raises `OSError`.  `poll` logs the failure, attempts the
disconnect, discards the session and propagates nothing — but it returns
the accumulated reading, not an empty result, because after `recover` it
still hands back `list(self.temperatures.items())`. -/
theorem claim_c7_counterexample :
    Mqtt.poll 0 ⟨some ⟨[("room", 72)], some .osErr, none, none, none⟩, [], 0⟩ =
      .ok ([("room", 72)],
           ⟨none, [], 0⟩,
           [.logPollError .osErr, .disconnectAttempt]) ∧
    ([("room", 72)] : List (String × ℚ)) ≠ [] := by
  constructor
  · rfl
  · simp

/-- Claim C7 as amended: on every transport-layer failure raised during
`Mqtt.poll` or the calls it makes, `poll` logs the failure, attempts a
disconnect whose own failure is logged and not propagated, discards the
session object (the client becomes `None`), propagates no exception, and
returns the temperature readings accumulated so far — which may be
non-empty, not necessarily an empty result. -/
theorem claim_c7_amended_recovery (now : ℚ) (st : Mqtt.State) (c : Mqtt.Client)
    (hc : st.client = some c)
    (hf : Mqtt.failure_during_poll now st c) :
    ∃ retval st' evs,
      Mqtt.poll now st = .ok (retval, st', evs) ∧
      retval = Mqtt.on_message_all st.temperatures c.loopMsgs ∧
      st'.client = none ∧ st'.temperatures = [] ∧
      (∃ e, Mqtt.Event.logPollError e ∈ evs) ∧
      Mqtt.Event.disconnectAttempt ∈ evs ∧
      (∀ ex, c.discErr = some ex → Mqtt.Event.logDisconnectError ex ∈ evs) := by
  obtain ⟨cl, temps, la⟩ := st
  simp only at hc
  subst hc
  simp only [Mqtt.failure_during_poll] at hf
  rcases hLoop : c.loopErr with _ | e
  · rcases hAdv : (decide (now - la > 600)) with _ | _
    · have hAdv' : ¬ (now - la > 600) := of_decide_eq_false hAdv
      rcases hUp : c.pubUptimeErr with _ | e2
      · exfalso
        rcases hf with h1 | h2 | h3
        · exact h1 hLoop
        · exact hAdv' h2.1
        · exact h3 hUp
      · rcases hDisc : c.discErr with _ | ex <;>
          (simp [Mqtt.poll, Mqtt.recover, Mqtt.advertise, hLoop, hAdv', hUp, hDisc]; refine ⟨_, _, _, ⟨rfl, rfl, rfl⟩, ?_⟩; simp)
    · have hAdv' : now - la > 600 := of_decide_eq_true hAdv
      rcases hCfg : c.pubCfgErr with _ | e1
      · rcases hUp : c.pubUptimeErr with _ | e2
        · exfalso
          rcases hf with h1 | h2 | h3
          · exact h1 hLoop
          · exact h2.2 hCfg
          · exact h3 hUp
        · rcases hDisc : c.discErr with _ | ex <;>
            (simp [Mqtt.poll, Mqtt.recover, Mqtt.advertise, hLoop, hAdv', hCfg, hUp, hDisc]; refine ⟨_, _, _, ⟨rfl, rfl, rfl⟩, ?_⟩; simp)
      · rcases hDisc : c.discErr with _ | ex <;>
          (simp [Mqtt.poll, Mqtt.recover, Mqtt.advertise, hLoop, hAdv', hCfg, hDisc]; refine ⟨_, _, _, ⟨rfl, rfl, rfl⟩, ?_⟩; simp)
  · rcases hDisc : c.discErr with _ | ex <;>
      (simp [Mqtt.poll, Mqtt.recover, Mqtt.advertise, hLoop, hDisc]; refine ⟨_, _, _, ⟨rfl, rfl, rfl⟩, ?_⟩; simp)

/-- Witness for the amended C7: a failed uptime publish with a failing
disconnect: the reading delivered by `loop` is still returned, the
session is discarded, the failure and the disconnect failure are logged,
and nothing propagates. -/
theorem claim_c7_witness :
    (⟨some ⟨[("attic", 65)], none, none, some .mmqtt, some .osErr⟩, [], 0⟩ :
        Mqtt.State).client =
      some ⟨[("attic", 65)], none, none, some .mmqtt, some .osErr⟩ ∧
    ∃ retval st' evs,
      Mqtt.poll 0 ⟨some ⟨[("attic", 65)], none, none, some .mmqtt, some .osErr⟩, [], 0⟩ =
        .ok (retval, st', evs) ∧
      retval = Mqtt.on_message_all [] [("attic", 65)] ∧
      st'.client = none ∧ st'.temperatures = [] ∧
      (∃ e, Mqtt.Event.logPollError e ∈ evs) ∧
      Mqtt.Event.disconnectAttempt ∈ evs ∧
      (∀ ex, (some Mqtt.PErr.osErr : Option Mqtt.PErr) = some ex →
        Mqtt.Event.logDisconnectError ex ∈ evs) :=
  ⟨rfl,
   claim_c7_amended_recovery 0
     ⟨some ⟨[("attic", 65)], none, none, some .mmqtt, some .osErr⟩, [], 0⟩
     ⟨[("attic", 65)], none, none, some .mmqtt, some .osErr⟩
     rfl (Or.inr (Or.inr (by simp)))⟩

end Goldilocks
